import Mathlib

/-!
Shallow embedding of the MindSweep backend (`src/main.py`): the language
detection heuristic, the prompt construction, the primary/fallback completion
strategy with persistence, and the history read path, together with theorems
settling the specification's claims about them.

Strings are modelled as `String`/`List Char`; the two external collaborators
(the hosted completion models and the document store) are modelled as
parameters of the request handler, so that every behaviour of the handler is
a function of the message and of the outcomes those collaborators produce.
-/

namespace MindSweep

/-- The fixed Hinglish keyword list from `detect_language`
(`src/main.py` lines 70-75). -/
def hinglish_words : List String :=
  ["kyu", "kaise", "aisa", "waise", "mujhe", "mera", "tera",
   "kya", "hota", "hogaya", "acha", "accha", "nahi", "nhi",
   "yrr", "bhai", "samjha", "samjh", "matlab", "bol", "kr",
   "dil", "yaar", "mann", "lag", "feel"]

/-- The count of characters of `text` lying in the Devanagari block
U+0900..U+097F inclusive, as computed by
`sum(1 for c in text if "ऀ" <= c <= "ॿ")` on line 65 of
`src/main.py`. -/
def devanagariCount (text : List Char) : Nat :=
  (text.filter fun c => decide ('ऀ' ≤ c) && decide (c ≤ 'ॿ')).length

/-- Python's substring containment `w in t`: `w` occurs contiguously in `t`,
that is, `w` is a prefix of some suffix of `t`. -/
def isSubstrOf (w : List Char) : List Char → Bool
  | [] => w.isEmpty
  | c :: cs => w.isPrefixOf (c :: cs) || isSubstrOf w cs

/-- Python's `str.lower()` on one character, exact wherever its result can
contain ASCII. By CPython's Unicode tables, the only non-ASCII code points
whose lowercase contains an ASCII character are U+212A KELVIN SIGN (to "k")
and U+0130 LATIN CAPITAL LETTER I WITH DOT ABOVE (to "i" then U+0307), and
U+0130 is the only multi-character lowercase expansion in all of Unicode;
every other non-ASCII character lowers to a single non-ASCII character. This
model is exact on ASCII and on those two code points and keeps every other
character unchanged, so the text it produces has the same maximal runs of
ASCII characters as CPython's `lower`, and containment of an ASCII-only
keyword — every entry of `hinglish_words` is ASCII — coincides with the
program on every input. -/
def pyLowerChar (c : Char) : List Char :=
  if c = '\u212A' then ['k']
  else if c = '\u0130' then ['i', '\u0307']
  else [c.toLower]

/-- Python's `str.lower()` over a whole text. -/
def pyLower (text : List Char) : List Char :=
  (text.map pyLowerChar).flatten

/-- The Hinglish keyword test of line 77 of `src/main.py`:
`any(w in text.lower() for w in hinglish_words)`, with `text.lower()`
modelled by `pyLower`. -/
def hinglishMatch (text : List Char) : Bool :=
  hinglish_words.any fun w => isSubstrOf w.toList (pyLower text)

/-- `detect_language` from `src/main.py` lines 63-80: more than 3 Devanagari
characters yields "hindi"; otherwise a Hinglish keyword occurring as a
substring of the lower-cased text yields "hinglish"; otherwise "english". -/
def detect_language (text : List Char) : String :=
  if devanagariCount text > 3 then "hindi"
  else if hinglishMatch text then "hinglish"
  else "english"

/-- Claim C4: for every input text with more than 3 characters in the
Devanagari range U+0900..U+097F, `detect_language` returns "hindi",
regardless of any other content of the text. -/
theorem detect_language_hindi (text : List Char) (h : 3 < devanagariCount text) :
    detect_language text = "hindi" := by
  unfold detect_language
  simp [h]

/-- Witness for C4: a concrete Hindi sentence with more than 3 Devanagari
characters, also containing the Hinglish keyword "samajh", is classified
"hindi". -/
theorem detect_language_hindi_witness :
    3 < devanagariCount "मुझे समझ नहीं आ रहा".toList ∧
      detect_language "मुझे समझ नहीं आ रहा".toList = "hindi" :=
  ⟨by decide, detect_language_hindi _ (by decide)⟩

/-- Claim C5: for every input text with at most 3 Devanagari characters, the
classification is "hinglish" exactly when some keyword of the fixed Hinglish
list occurs as a substring of the lower-cased text, and "english" otherwise;
in particular the empty string is classified "english". -/
theorem detect_language_nonhindi (text : List Char) (h : devanagariCount text ≤ 3) :
    (hinglishMatch text = true → detect_language text = "hinglish") ∧
      (hinglishMatch text = false → detect_language text = "english") ∧
      detect_language [] = "english" := by
  refine ⟨?_, ?_, by decide⟩ <;> intro hm <;> unfold detect_language <;>
    simp [Nat.not_lt.mpr h, hm]

/-- Witness for C5: "kya yaar" has no Devanagari characters and contains the
keyword "kya", so it is classified "hinglish"; "hello world" matches no
keyword and is classified "english". Two non-ASCII case-mapping probes agree
with CPython: U+212A KELVIN SIGN followed by "r" lower-cases to the keyword
"kr", and "nah" followed by U+0130 lower-cases to a text containing the
keyword "nahi" — both are classified "hinglish". -/
theorem detect_language_nonhindi_witness :
    devanagariCount "kya yaar".toList ≤ 3 ∧
      detect_language "kya yaar".toList = "hinglish" ∧
      detect_language "hello world".toList = "english" ∧
      detect_language "\u212Ar".toList = "hinglish" ∧
      detect_language "nah\u0130".toList = "hinglish" :=
  ⟨by decide, (detect_language_nonhindi _ (by decide)).1 (by decide),
    (detect_language_nonhindi _ (by decide)).2.1 (by decide),
    (detect_language_nonhindi _ (by decide)).1 (by decide),
    (detect_language_nonhindi _ (by decide)).1 (by decide)⟩

/-- The three language instruction sentences of `src/main.py` lines 175-180,
selected from the detected label. The handler computes this value but — see
`promptTemplate` — never inserts it into the prompt it sends. -/
def language_instruction (lang : String) : String :=
  if lang = "hindi" then "Respond completely in **simple Hindi**."
  else if lang = "hinglish" then "Respond completely in **Hinglish** (Hindi in Roman English)."
  else "Respond in **simple warm English**."

/-- The prompt assigned on lines 183-231 of `src/main.py`. The Python source
writes it as an f-string, but the literal contains no interpolation fields,
so its value is this fixed constant: neither the `language_instruction`
computed just above it nor the user message occurs anywhere in it. Written
here line by line, `\n`-terminated, exactly as in the source (several lines
end in two spaces). -/
def promptTemplate : String :=
  "\n" ++
  "You are MindSweep AI — your job is to help people think more clearly during emotional or stressful moments.\n" ++
  "\n" ++
  "Your tone should feel like a grounded, emotionally intelligent person talking directly to them — calm, steady, patient, and clear. The style should feel natural, human, and deeply understanding, similar to a friend who thinks maturely and speaks honestly.\n" ++
  "\n" ++
  "Your response style:\n" ++
  "\n" ++
  "• Pure English only.  \n" ++
  "• Warm, steady, emotionally aware.  \n" ++
  "• Speak in simple, clear, grounded sentences.  \n" ++
  "• No robotic tone. No generic AI phrases.  \n" ++
  "• No therapy jargon. No “clinical” language.  \n" ++
  "• No over-positivity. No cheesy statements.  \n" ++
  "• No emojis unless the user specifically asks for them.  \n" ++
  "• Never judge the user or make assumptions.  \n" ++
  "• Never apologize constantly.  \n" ++
  "• Never sound overly motivational or preachy.  \n" ++
  "• Never say “as an AI model”.  \n" ++
  "• No Hinglish at all.\n" ++
  "\n" ++
  "How you speak:\n" ++
  "\n" ++
  "• You explain feelings calmly and help the user slow down.  \n" ++
  "• You reflect their emotions in a grounded way.  \n" ++
  "• You give clarity through perspective — not lectures.  \n" ++
  "• You help them understand what their mind is doing beneath the surface.  \n" ++
  "• You help them take realistic, simple steps that reduce pressure.  \n" ++
  "• You reassure them gently without making big promises.\n" ++
  "\n" ++
  "Response Structure:\n" ++
  "\n" ++
  "1. Emotional reflection  \n" ++
  "   Show them you understand the weight of what they’re feeling — without exaggerating it.\n" ++
  "\n" ++
  "2. Calm explanation  \n" ++
  "   Give a grounded explanation of why their mind might be reacting this way.\n" ++
  "\n" ++
  "3. Clarity points  \n" ++
  "   2–4 short, mature insights that help them see the situation more clearly.\n" ++
  "\n" ++
  "4. Practical next steps  \n" ++
  "   Small actions that make things feel lighter. Simple. Doable.\n" ++
  "\n" ++
  "5. Reassurance  \n" ++
  "   Quiet confidence. No drama. No overpromising.\n" ++
  "\n" ++
  "Your goal is to help the user breathe slower, think clearer, and feel like they're talking to someone who actually understands how the mind works — without trying to “fix” them.\n" ++
  "\n"

/-- One persisted History Record: the dictionary written to the `mindsweeps`
collection on lines 245-249 of `src/main.py` (`message`, `clarity`,
`timestamp`). The timestamp is modelled as an abstract clock reading; it is
optional because the read path of `get_history` defensively tolerates a
record without one. -/
structure StoredRecord where
  message : String
  clarity : String
  timestamp : Option Nat

/-- Outcome at the transport boundary: either an HTTP success response with a
JSON object body (modelled as a key/value list with string values), or an
exception escaping the handler uncaught. -/
inductive HttpOutcome where
  | body (fields : List (String × String))
  | exception

/-- Field access in a JSON-object outcome; `none` for a missing field or for
an uncaught exception. -/
def HttpOutcome.lookup : HttpOutcome → String → Option String
  | HttpOutcome.body fields, k => fields.lookup k
  | HttpOutcome.exception, _ => none

/-- The environment of a single request: what the external collaborators
would answer. `primaryCall` and `fallbackCall` map the prompt that is sent to
`some` generated text, or to `none` when the call raises; `storeWrite` tells
whether the Firestore `add` of lines 245-249 succeeds; `now` is the server
clock read by `datetime.datetime.utcnow()`. -/
structure Env where
  primaryCall : String → Option String
  fallbackCall : String → Option String
  storeWrite : Bool
  now : Nat

/-- The completion try/except block of `src/main.py` lines 234-241: invoke
the primary model; on any failure invoke the fallback once with the same
prompt. Returns the generated text and whether the fallback was invoked;
`none` when the fallback also fails — and that second failure is raised
outside any try/except. -/
def completeWithFallback (env : Env) (prompt : String) : Option (String × Bool) :=
  match env.primaryCall prompt with
  | some clarity => some (clarity, false)
  | none =>
    match env.fallbackCall prompt with
    | some clarity => some (clarity, true)
    | none => none

/-- The Firestore write block of `src/main.py` lines 244-254: on a successful
`add`, one record is written and the response is `{"clarity": clarity}`; on a
write failure nothing is written and the response is the clarity text plus a
warning. Returns the response and the list of records actually written. -/
def persistStep (env : Env) (message : List Char) (clarity : String) :
    HttpOutcome × List StoredRecord :=
  if env.storeWrite then
    (HttpOutcome.body [("clarity", clarity)],
      [{ message := String.mk message, clarity := clarity, timestamp := some env.now }])
  else
    (HttpOutcome.body [("clarity", clarity), ("warning", "Saved locally, not in DB")], [])

/-- Trace of one request through the `/mindsweep` handler: the prompt sent to
the completion model, the (unused) language instruction, whether the fallback
and the store append were invoked, the records written, and the outcome at
the transport boundary. -/
structure MindsweepTrace where
  prompt : String
  languageInstruction : String
  fallbackInvoked : Bool
  appendInvoked : Bool
  written : List StoredRecord
  outcome : HttpOutcome

/-- The `/mindsweep` handler of `src/main.py` lines 167-254: detect the
language of the message, compute the language instruction (a dead store in
the source — it is never interpolated), send the fixed prompt through the
completion-with-fallback block, then persist and respond. When both
completion calls fail, the fallback's exception propagates uncaught: the
store is never touched and no JSON body is produced. -/
def mindsweep (message : List Char) (env : Env) : MindsweepTrace :=
  match completeWithFallback env promptTemplate with
  | none =>
    { prompt := promptTemplate,
      languageInstruction := language_instruction (detect_language message),
      fallbackInvoked := true, appendInvoked := false, written := [],
      outcome := HttpOutcome.exception }
  | some (clarity, fb) =>
    { prompt := promptTemplate,
      languageInstruction := language_instruction (detect_language message),
      fallbackInvoked := fb, appendInvoked := true,
      written := (persistStep env message clarity).2,
      outcome := (persistStep env message clarity).1 }

/-- A request environment in which both models answer and the store write
succeeds. -/
def envAllUp : Env :=
  { primaryCall := fun _ => some "primary clarity",
    fallbackCall := fun _ => some "fallback clarity", storeWrite := true, now := 7 }

/-- A request environment in which the primary model fails, the fallback
answers, and the store write succeeds. -/
def envPrimaryDown : Env :=
  { primaryCall := fun _ => none,
    fallbackCall := fun _ => some "fallback clarity", storeWrite := true, now := 7 }

/-- A request environment in which both model calls fail. -/
def envAllDown : Env :=
  { primaryCall := fun _ => none, fallbackCall := fun _ => none,
    storeWrite := true, now := 7 }

/-- A request environment in which the primary model answers but the store
write fails. -/
def envStoreDown : Env :=
  { primaryCall := fun _ => some "primary clarity",
    fallbackCall := fun _ => some "fallback clarity", storeWrite := false, now := 7 }

/-- A successful primary call short-circuits the completion block. -/
theorem completeWithFallback_of_primary (env : Env) (p t : String)
    (hp : env.primaryCall p = some t) :
    completeWithFallback env p = some (t, false) := by
  unfold completeWithFallback
  rw [hp]

/-- A failed primary call followed by a successful fallback call. -/
theorem completeWithFallback_of_fallback (env : Env) (p t : String)
    (hp : env.primaryCall p = none) (hf : env.fallbackCall p = some t) :
    completeWithFallback env p = some (t, true) := by
  unfold completeWithFallback
  rw [hp, hf]

/-- When both calls fail, the completion block yields nothing. -/
theorem completeWithFallback_of_both_fail (env : Env) (p : String)
    (hp : env.primaryCall p = none) (hf : env.fallbackCall p = none) :
    completeWithFallback env p = none := by
  unfold completeWithFallback
  rw [hp, hf]

/-- Unfolding of `mindsweep` when the completion block fails entirely. -/
theorem mindsweep_of_complete_none (message : List Char) (env : Env)
    (h : completeWithFallback env promptTemplate = none) :
    mindsweep message env =
      { prompt := promptTemplate,
        languageInstruction := language_instruction (detect_language message),
        fallbackInvoked := true, appendInvoked := false, written := [],
        outcome := HttpOutcome.exception } := by
  unfold mindsweep
  rw [h]

/-- Unfolding of `mindsweep` when the completion block produces text. -/
theorem mindsweep_of_complete_some (message : List Char) (env : Env) (t : String) (fb : Bool)
    (h : completeWithFallback env promptTemplate = some (t, fb)) :
    mindsweep message env =
      { prompt := promptTemplate,
        languageInstruction := language_instruction (detect_language message),
        fallbackInvoked := fb, appendInvoked := true,
        written := (persistStep env message t).2,
        outcome := (persistStep env message t).1 } := by
  unfold mindsweep
  rw [h]

/-- Unfolding of `persistStep` when the store write succeeds. -/
theorem persistStep_of_write_ok (env : Env) (message : List Char) (clarity : String)
    (h : env.storeWrite = true) :
    persistStep env message clarity =
      (HttpOutcome.body [("clarity", clarity)],
        [{ message := String.mk message, clarity := clarity,
           timestamp := some env.now }]) := by
  unfold persistStep
  rw [h]
  rfl

/-- Unfolding of `persistStep` when the store write fails. -/
theorem persistStep_of_write_failed (env : Env) (message : List Char) (clarity : String)
    (h : env.storeWrite = false) :
    persistStep env message clarity =
      (HttpOutcome.body [("clarity", clarity), ("warning", "Saved locally, not in DB")],
        []) := by
  unfold persistStep
  rw [h]
  rfl

/-- Claim C10: the prompt sent to the completion model is identical for any
two requests, whatever the messages and the detected labels: the f-string of
lines 183-231 has no interpolation fields, so the composed prompt is a fixed
constant independent of the user's input and of the classifier's output. -/
theorem mindsweep_prompt_constant (m1 m2 : List Char) (e1 e2 : Env) :
    (mindsweep m1 e1).prompt = (mindsweep m2 e2).prompt := by
  rcases h1 : completeWithFallback e1 promptTemplate with _ | ⟨t1, f1⟩ <;>
    rcases h2 : completeWithFallback e2 promptTemplate with _ | ⟨t2, f2⟩
  · rw [mindsweep_of_complete_none m1 e1 h1, mindsweep_of_complete_none m2 e2 h2]
  · rw [mindsweep_of_complete_none m1 e1 h1, mindsweep_of_complete_some m2 e2 t2 f2 h2]
  · rw [mindsweep_of_complete_some m1 e1 t1 f1 h1, mindsweep_of_complete_none m2 e2 h2]
  · rw [mindsweep_of_complete_some m1 e1 t1 f1 h1, mindsweep_of_complete_some m2 e2 t2 f2 h2]

set_option maxRecDepth 40000 in
/-- Claim C1 (code bug): at the concrete Hindi request below, the handler
computes the "hindi" language instruction, yet the prompt it sends is the
fixed template, and neither the user message nor that language directive
occurs in the template as a substring — the f-string that the source labels
"Final dynamic prompt" interpolates nothing. -/
theorem mindsweep_prompt_omits_input :
    (mindsweep "मुझे समझ नहीं आ रहा".toList envAllUp).prompt = promptTemplate ∧
      (mindsweep "मुझे समझ नहीं आ रहा".toList envAllUp).languageInstruction =
        "Respond completely in **simple Hindi**." ∧
      isSubstrOf "मुझे समझ नहीं आ रहा".toList promptTemplate.toList = false ∧
      isSubstrOf (language_instruction "hindi").toList promptTemplate.toList = false := by
  refine ⟨rfl, rfl, by decide, by decide⟩

/-- Claim C6: whenever the primary completion call succeeds, the handler's
response carries the primary model's generated text under `clarity`, and the
fallback model is never invoked for that request. -/
theorem mindsweep_primary_success (message : List Char) (env : Env) (t : String)
    (hp : env.primaryCall promptTemplate = some t) :
    (mindsweep message env).outcome.lookup "clarity" = some t ∧
      (mindsweep message env).fallbackInvoked = false := by
  rw [mindsweep_of_complete_some message env t false
    (completeWithFallback_of_primary env promptTemplate t hp)]
  cases hs : env.storeWrite
  · rw [persistStep_of_write_failed env message t hs]
    exact ⟨rfl, rfl⟩
  · rw [persistStep_of_write_ok env message t hs]
    exact ⟨rfl, rfl⟩

/-- Witness for C6: in the all-up environment the response's `clarity` is the
primary model's text and the fallback is not invoked. -/
theorem mindsweep_primary_success_witness :
    envAllUp.primaryCall promptTemplate = some "primary clarity" ∧
      (mindsweep "hello".toList envAllUp).outcome.lookup "clarity" = some "primary clarity" ∧
      (mindsweep "hello".toList envAllUp).fallbackInvoked = false :=
  ⟨rfl, (mindsweep_primary_success "hello".toList envAllUp _ rfl).1,
    (mindsweep_primary_success "hello".toList envAllUp _ rfl).2⟩

/-- Counterexample to claim C2: with both completion calls failing, the
handler produces no JSON error payload — the fallback call on line 241 of
`src/main.py` sits outside every try/except, so its exception reaches the
transport layer uncaught. -/
theorem mindsweep_both_fail_uncaught :
    (mindsweep "hello".toList envAllDown).outcome = HttpOutcome.exception := rfl

/-- Claim C2 amended: for every request in which both the primary and the
fallback completion calls fail, the handler does not catch the second
failure: no JSON body is produced and the exception escapes to the transport
layer. -/
theorem mindsweep_both_fail (message : List Char) (env : Env)
    (hp : env.primaryCall promptTemplate = none)
    (hf : env.fallbackCall promptTemplate = none) :
    (mindsweep message env).outcome = HttpOutcome.exception := by
  rw [mindsweep_of_complete_none message env
    (completeWithFallback_of_both_fail env promptTemplate hp hf)]

/-- Witness for the amended C2 at the environment with both models down. -/
theorem mindsweep_both_fail_witness :
    envAllDown.primaryCall promptTemplate = none ∧
      envAllDown.fallbackCall promptTemplate = none ∧
      (mindsweep "hi".toList envAllDown).outcome = HttpOutcome.exception :=
  ⟨rfl, rfl, mindsweep_both_fail "hi".toList envAllDown rfl rfl⟩

/-- Counterexample to claim C3: with the primary model down and the fallback
serving, the response does carry the fallback's text under `clarity`, but it
contains no `model_used` field — no handler response ever names the serving
model. -/
theorem mindsweep_no_model_used :
    (mindsweep "hello".toList envPrimaryDown).outcome.lookup "clarity" =
        some "fallback clarity" ∧
      (mindsweep "hello".toList envPrimaryDown).outcome.lookup "model_used" = none :=
  ⟨rfl, rfl⟩

/-- Claim C3 amended: when the primary completion call fails and the fallback
succeeds, the handler returns the fallback's generated text under `clarity`
(and the fallback is recorded as invoked), but the response contains no
`model_used` field identifying the serving model. -/
theorem mindsweep_fallback_success (message : List Char) (env : Env) (t : String)
    (hp : env.primaryCall promptTemplate = none)
    (hf : env.fallbackCall promptTemplate = some t) :
    (mindsweep message env).outcome.lookup "clarity" = some t ∧
      (mindsweep message env).fallbackInvoked = true ∧
      (mindsweep message env).outcome.lookup "model_used" = none := by
  rw [mindsweep_of_complete_some message env t true
    (completeWithFallback_of_fallback env promptTemplate t hp hf)]
  cases hs : env.storeWrite
  · rw [persistStep_of_write_failed env message t hs]
    exact ⟨rfl, rfl, rfl⟩
  · rw [persistStep_of_write_ok env message t hs]
    exact ⟨rfl, rfl, rfl⟩

/-- Witness for the amended C3 at the environment with the primary down. -/
theorem mindsweep_fallback_success_witness :
    envPrimaryDown.primaryCall promptTemplate = none ∧
      envPrimaryDown.fallbackCall promptTemplate = some "fallback clarity" ∧
      (mindsweep "hi".toList envPrimaryDown).outcome.lookup "clarity" =
        some "fallback clarity" ∧
      (mindsweep "hi".toList envPrimaryDown).fallbackInvoked = true :=
  ⟨rfl, rfl, (mindsweep_fallback_success "hi".toList envPrimaryDown _ rfl rfl).1,
    (mindsweep_fallback_success "hi".toList envPrimaryDown _ rfl rfl).2.1⟩

/-- Claim C7: every request writes at most one History Record, and when both
completion calls fail the store append is never invoked, so such a request
writes zero records. -/
theorem mindsweep_at_most_one_record (message : List Char) (env : Env) :
    (mindsweep message env).written.length ≤ 1 ∧
      (env.primaryCall promptTemplate = none → env.fallbackCall promptTemplate = none →
        (mindsweep message env).appendInvoked = false ∧
          (mindsweep message env).written = []) := by
  rcases hc : completeWithFallback env promptTemplate with _ | ⟨t, fb⟩
  · rw [mindsweep_of_complete_none message env hc]
    exact ⟨Nat.zero_le 1, fun _ _ => ⟨rfl, rfl⟩⟩
  · rw [mindsweep_of_complete_some message env t fb hc]
    refine ⟨?_, fun hp hf => ?_⟩
    · cases hs : env.storeWrite
      · rw [persistStep_of_write_failed env message t hs]
        exact Nat.zero_le 1
      · rw [persistStep_of_write_ok env message t hs]
        exact Nat.le_refl 1
    · rw [completeWithFallback_of_both_fail env promptTemplate hp hf] at hc
      exact Option.noConfusion hc

/-- Witness for C7: with both models down, the store append is not invoked
and no record is written. -/
theorem mindsweep_at_most_one_record_witness :
    (mindsweep "hi".toList envAllDown).written.length ≤ 1 ∧
      (mindsweep "hi".toList envAllDown).appendInvoked = false ∧
      (mindsweep "hi".toList envAllDown).written = [] :=
  ⟨(mindsweep_at_most_one_record "hi".toList envAllDown).1,
    ((mindsweep_at_most_one_record "hi".toList envAllDown).2 rfl rfl).1,
    ((mindsweep_at_most_one_record "hi".toList envAllDown).2 rfl rfl).2⟩

/-- Claim C8: when a completion succeeds (on the primary, or on the fallback
after a primary failure) but the store write fails, the handler still returns
the generated text: the response carries `clarity` together with a `warning`
field, and no exception escapes to the transport layer. -/
theorem mindsweep_store_failure (message : List Char) (env : Env) (t : String)
    (hw : env.storeWrite = false)
    (hc : env.primaryCall promptTemplate = some t ∨
        (env.primaryCall promptTemplate = none ∧
          env.fallbackCall promptTemplate = some t)) :
    (mindsweep message env).outcome.lookup "clarity" = some t ∧
      (mindsweep message env).outcome.lookup "warning" = some "Saved locally, not in DB" ∧
      (mindsweep message env).outcome ≠ HttpOutcome.exception := by
  rcases hc with hp | ⟨hp, hf⟩
  · rw [mindsweep_of_complete_some message env t false
      (completeWithFallback_of_primary env promptTemplate t hp),
      persistStep_of_write_failed env message t hw]
    exact ⟨rfl, rfl, fun h => HttpOutcome.noConfusion h⟩
  · rw [mindsweep_of_complete_some message env t true
      (completeWithFallback_of_fallback env promptTemplate t hp hf),
      persistStep_of_write_failed env message t hw]
    exact ⟨rfl, rfl, fun h => HttpOutcome.noConfusion h⟩

/-- Witness for C8: with the store down and the primary serving, the
response carries both `clarity` and the warning. -/
theorem mindsweep_store_failure_witness :
    envStoreDown.storeWrite = false ∧
      (mindsweep "hi".toList envStoreDown).outcome.lookup "clarity" =
        some "primary clarity" ∧
      (mindsweep "hi".toList envStoreDown).outcome.lookup "warning" =
        some "Saved locally, not in DB" :=
  ⟨rfl, (mindsweep_store_failure "hi".toList envStoreDown _ rfl (Or.inl rfl)).1,
    (mindsweep_store_failure "hi".toList envStoreDown _ rfl (Or.inl rfl)).2.1⟩

/-- Sort key of a stored record under the store's `order_by("timestamp")`:
its clock reading (only applied to records that have one). -/
def tsKey (r : StoredRecord) : Nat := r.timestamp.getD 0

/-- The descending-timestamp ordering of the query results: `tsLE a b` holds
when `b`'s key is at most `a`'s key, so a `tsLE`-sorted list is in
non-increasing (newest-first) timestamp order. -/
def tsLE (a b : StoredRecord) : Prop := tsKey b ≤ tsKey a

instance : DecidableRel tsLE := fun a b => Nat.decLe (tsKey b) (tsKey a)

instance : IsTotal StoredRecord tsLE := ⟨fun a b => Nat.le_total (tsKey b) (tsKey a)⟩

instance : IsTrans StoredRecord tsLE := ⟨fun _ _ _ hab hbc => Nat.le_trans hbc hab⟩

/-- Modelled from the spec: the query
`db.collection("mindsweeps").order_by("timestamp", direction=DESCENDING).limit(20).stream()`
of `src/main.py` lines 263-268 is executed by the external managed document
store, whose engine is not part of this repository. Per §4.4 Contract B of
the spec it returns at most `limit` records in descending `created_at`
order; documents lacking the ordering field are not returned by an
`order_by` query. -/
def streamQuery (docs : List StoredRecord) : List StoredRecord :=
  (List.insertionSort tsLE (docs.filter fun r => r.timestamp.isSome)).take 20

/-- Modelled from the spec: `isoformat()` of the external datetime library —
§4.4 of the spec: "each record's `created_at` is serialized to an ISO-8601
string". With clock readings modelled as `Nat`, an abstract injective
rendering stands in for the ISO-8601 text. -/
def isoFormat (t : Nat) : String := toString t

/-- One element of the `/history` response, as built on lines 273-277 of
`src/main.py`. -/
structure HistoryEntry where
  message : String
  clarity : String
  timestamp : String

/-- The projection of a stored record to a `/history` element
(`src/main.py` lines 272-277): a record without a timestamp serializes it as
the empty string rather than raising. -/
def projectRecord (r : StoredRecord) : HistoryEntry :=
  { message := r.message, clarity := r.clarity,
    timestamp := match r.timestamp with | some t => isoFormat t | none => "" }

/-- The `/history` response body. -/
structure HistoryPayload where
  history : List HistoryEntry

/-- The `get_history` handler of `src/main.py` lines 260-283: on a
successful read, respond with the projections of the streamed query results;
on any store read failure (the `Except.error` case of the store's answer),
degrade to `{"history": []}` instead of propagating the failure. -/
def get_history (store : Except Unit (List StoredRecord)) : HistoryPayload :=
  match store with
  | Except.ok docs => { history := (streamQuery docs).map projectRecord }
  | Except.error _ => { history := [] }

/-- Claim C9: the history read path returns at most 20 records; on a
successful read they are the projections of the query's results, whose
timestamps are in non-increasing (newest-first) order; on a store read
failure it returns the degraded payload with an empty history list. -/
theorem get_history_spec (store : Except Unit (List StoredRecord)) :
    (get_history store).history.length ≤ 20 ∧
      (∀ docs, store = Except.ok docs →
        (get_history store).history = (streamQuery docs).map projectRecord ∧
          List.Sorted tsLE (streamQuery docs)) ∧
      (∀ e, store = Except.error e → (get_history store).history = []) := by
  cases store with
  | error e =>
    exact ⟨Nat.zero_le 20, fun _ h => Except.noConfusion h, fun _ _ => rfl⟩
  | ok docs =>
    refine ⟨?_, fun docs2 h => ?_, fun _ h => Except.noConfusion h⟩
    · show ((streamQuery docs).map projectRecord).length ≤ 20
      rw [List.length_map]
      unfold streamQuery
      rw [List.length_take]
      exact Nat.min_le_left _ _
    · injection h with h2
      subst h2
      refine ⟨rfl, ?_⟩
      exact List.Pairwise.sublist (List.take_sublist 20 _)
        (List.sorted_insertionSort tsLE (docs.filter fun r => r.timestamp.isSome))

/-- A concrete store content for the C9 witness: two records, written out of
timestamp order. -/
def docsEx : List StoredRecord :=
  [{ message := "first", clarity := "first clarity", timestamp := some 5 },
   { message := "second", clarity := "second clarity", timestamp := some 9 }]

/-- Witness for C9 at a concrete store: the bound, the projection equation,
the newest-first ordering, and the degraded payload on a read failure. -/
theorem get_history_spec_witness :
    (get_history (Except.ok docsEx)).history.length ≤ 20 ∧
      (get_history (Except.ok docsEx)).history = (streamQuery docsEx).map projectRecord ∧
      List.Sorted tsLE (streamQuery docsEx) ∧
      (get_history (Except.error ())).history = [] :=
  ⟨(get_history_spec (Except.ok docsEx)).1,
    ((get_history_spec (Except.ok docsEx)).2.1 docsEx rfl).1,
    ((get_history_spec (Except.ok docsEx)).2.1 docsEx rfl).2,
    (get_history_spec (Except.error ())).2.2 () rfl⟩

end MindSweep
